import Mathlib

/-!
Formal model of the analysis orchestration and caching engine of the
web3-Guardian backend.

The definitions below are shallow embeddings of the Python sources:

* `src/backend/src/rag/rag_pipeline.py` — the `SmartContractRAGPipeline`
  class: the four sub-analysis runners, `analyze_contract` (cache check,
  fan-out, fan-in, cache store), `_combine_analysis_results`,
  `_generate_cache_key` and `_is_cache_valid`.
* `src/backend/main.py` — `perform_static_analysis` and
  `perform_dynamic_analysis`.
* `src/backend/src/simulation/tenderly_new.py` — `TenderlyClient.network_map`
  and `TenderlyClient._get_network_id`.

Machine floats of the source are modelled as rationals, Python integers and
datetimes as `Int`, 32-bit words inside the hash functions as `Nat` values
kept below `2 ^ 32` by explicit reduction.  Calls to external collaborators
(Gemini, the vector store, Tenderly) are modelled by passing the outcome of
the call — a value or an exception, as an `Except` — into the function that
performs the call, mirroring the `try/except` structure of the source.
-/

/-! ## Basic string utilities (Python `str.lower`, `str.isdigit`, `str(int)`) -/

/-- ASCII lower-casing of one character, as Python `str.lower` acts on the
ASCII inputs occurring in this code base. -/
def toLowerChar (c : Char) : Char :=
  if 65 ≤ c.toNat && c.toNat ≤ 90 then Char.ofNat (c.toNat + 32) else c

/-- Python `s.lower()` for ASCII strings. -/
def strLower (s : String) : String := ⟨s.data.map toLowerChar⟩

/-- ASCII decimal digit test for one character. -/
def isDigitChar (c : Char) : Bool := 48 ≤ c.toNat && c.toNat ≤ 57

/-- Python `s.isdigit()` for ASCII strings: non-empty and all digits. -/
def isDigitStr (s : String) : Bool := !s.data.isEmpty && s.data.all isDigitChar

/-- Python `int(s)` on an all-digit string. -/
def strToNat (s : String) : Nat :=
  s.data.foldl (fun a c => 10 * a + (c.toNat - 48)) 0

/-- The character of a decimal digit. -/
def digitChar (d : Nat) : Char := Char.ofNat (48 + d)

/-- Decimal digit characters of a positive number, most significant first;
the first argument is recursion fuel, always sufficient when it is at least
the number itself. -/
def natDigitsAux : Nat → Nat → List Char
  | _, 0 => []
  | 0, _ + 1 => []
  | fuel + 1, n + 1 => natDigitsAux fuel ((n + 1) / 10) ++ [digitChar ((n + 1) % 10)]

/-- Decimal digit characters of a positive number, most significant first. -/
def natDigits (n : Nat) : List Char := natDigitsAux n n

/-- Python `str(n)` for a natural number. -/
def natRepr (n : Nat) : String := if n = 0 then "0" else ⟨natDigits n⟩

/-- Python `str(n)` for an integer. -/
def intRepr (n : Int) : String :=
  if n < 0 then "-" ++ natRepr n.natAbs else natRepr n.toNat

/-- Substring test on character lists (Python `in` on strings). -/
def infixOf (p : List Char) : List Char → Bool
  | [] => p.isEmpty
  | c :: tl => p.isPrefixOf (c :: tl) || infixOf p tl

/-- Python `pat in t` for strings. -/
def containsSub (t pat : String) : Bool := infixOf pat.data t.data

/-! ## Byte-level helpers shared by the hash functions -/

/-- The word modulus `2 ^ 32` of MD5 and SHA-256. -/
def M32 : Nat := 4294967296

/-- Addition modulo `2 ^ 32`. -/
def add32 (a b : Nat) : Nat := (a + b) % M32

/-- Bitwise complement of a 32-bit word. -/
def not32 (a : Nat) : Nat := a ^^^ 4294967295

/-- Rotation of a 32-bit word to the left by n bit positions. -/
def rotl32 (x n : Nat) : Nat := ((x <<< n) % M32) ||| (x >>> (32 - n))

/-- Rotation of a 32-bit word to the right by n bit positions. -/
def rotr32 (x n : Nat) : Nat := (x >>> n) ||| ((x <<< (32 - n)) % M32)

/-- The `k` little-endian bytes of a number. -/
def leBytes : Nat → Nat → List Nat
  | 0, _ => []
  | k + 1, v => v % 256 :: leBytes k (v / 256)

/-- The `k` big-endian bytes of a number. -/
def beBytes (k v : Nat) : List Nat := (leBytes k v).reverse

/-- Lower-case hexadecimal digit character. -/
def hexChar (d : Nat) : Char :=
  if d < 10 then Char.ofNat (48 + d) else Char.ofNat (87 + d)

/-- Two lower-case hex characters of one byte. -/
def byteToHex (b : Nat) : List Char := [hexChar (b / 16), hexChar (b % 16)]

/-- Lower-case hex rendering of a byte list, as `hexdigest` produces. -/
def bytesToHex (bs : List Nat) : String := ⟨bs.flatMap byteToHex⟩

/-- UTF-8 bytes of one character (Python `str.encode`). -/
def utf8Bytes (c : Char) : List Nat :=
  let n := c.toNat
  if n < 128 then [n]
  else if n < 2048 then [192 + n / 64, 128 + n % 64]
  else if n < 65536 then [224 + n / 4096, 128 + (n / 64) % 64, 128 + n % 64]
  else [240 + n / 262144, 128 + (n / 4096) % 64, 128 + (n / 64) % 64, 128 + n % 64]

/-- Python `s.encode()`: UTF-8 bytes of a string. -/
def strBytes (s : String) : List Nat := s.data.flatMap utf8Bytes

/-- Split a byte list into 64-byte chunks; the first argument is recursion
fuel, always sufficient when it is at least the length of the list. -/
def chunks64Aux : Nat → List Nat → List (List Nat)
  | _, [] => []
  | 0, _ :: _ => []
  | fuel + 1, c :: tl => (c :: tl).take 64 :: chunks64Aux fuel ((c :: tl).drop 64)

/-- Split a byte list into 64-byte chunks. -/
def chunks64 (l : List Nat) : List (List Nat) := chunks64Aux l.length l

/-- Merkle-Damgard padding shared by MD5 and SHA-256: a `0x80` byte, zeros to
55 mod 64, then the original bit length as eight bytes. -/
def padTail (len : Nat) : Nat := (120 - (len + 1) % 64) % 64

/-! ## MD5 (RFC 1321), used by `_generate_cache_key` on the contract code -/

/-- The 64 MD5 round constants. -/
def md5K : List Nat := [
  3614090360, 3905402710, 606105819, 3250441966, 4118548399,
  1200080426, 2821735955, 4249261313, 1770035416, 2336552879,
  4294925233, 2304563134, 1804603682, 4254626195, 2792965006,
  1236535329, 4129170786, 3225465664, 643717713, 3921069994,
  3593408605, 38016083, 3634488961, 3889429448, 568446438,
  3275163606, 4107603335, 1163531501, 2850285829, 4243563512,
  1735328473, 2368359562, 4294588738, 2272392833, 1839030562,
  4259657740, 2763975236, 1272893353, 4139469664, 3200236656,
  681279174, 3936430074, 3572445317, 76029189, 3654602809,
  3873151461, 530742520, 3299628645, 4096336452, 1126891415,
  2878612391, 4237533241, 1700485571, 2399980690, 4293915773,
  2240044497, 1873313359, 4264355552, 2734768916, 1309151649,
  4149444226, 3174756917, 718787259, 3951481745]

/-- The 64 MD5 per-round shift amounts. -/
def md5S : List Nat := [
  7, 12, 17, 22, 7, 12, 17, 22, 7, 12, 17, 22, 7, 12, 17, 22,
  5, 9, 14, 20, 5, 9, 14, 20, 5, 9, 14, 20, 5, 9, 14, 20,
  4, 11, 16, 23, 4, 11, 16, 23, 4, 11, 16, 23, 4, 11, 16, 23,
  6, 10, 15, 21, 6, 10, 15, 21, 6, 10, 15, 21, 6, 10, 15, 21]

/-- MD5 working state. -/
structure MD5St where
  a : Nat
  b : Nat
  c : Nat
  d : Nat

/-- The MD5 round function and message index for round `i`. -/
def md5F (i b c d : Nat) : Nat × Nat :=
  if i < 16 then ((b &&& c) ||| (not32 b &&& d), i)
  else if i < 32 then ((d &&& b) ||| (not32 d &&& c), (5 * i + 1) % 16)
  else if i < 48 then (b ^^^ c ^^^ d, (3 * i + 5) % 16)
  else (c ^^^ (b ||| not32 d), (7 * i) % 16)

/-- One MD5 round over message words `m`. -/
def md5Round (m : List Nat) (st : MD5St) (i : Nat) : MD5St :=
  let fg := md5F i st.b st.c st.d
  let f := add32 (add32 (add32 fg.1 st.a) (md5K.getD i 0)) (m.getD fg.2 0)
  ⟨st.d, add32 st.b (rotl32 f (md5S.getD i 0)), st.b, st.c⟩

/-- The 16 little-endian message words of one 64-byte chunk. -/
def chunkWordsLE (chunk : List Nat) : List Nat :=
  (List.range 16).map fun j =>
    chunk.getD (4 * j) 0 + 256 * chunk.getD (4 * j + 1) 0 +
      65536 * chunk.getD (4 * j + 2) 0 + 16777216 * chunk.getD (4 * j + 3) 0

/-- MD5 compression of one 64-byte chunk. -/
def md5Compress (h : MD5St) (chunk : List Nat) : MD5St :=
  let w := chunkWordsLE chunk
  let st := (List.range 64).foldl (md5Round w) h
  ⟨add32 h.a st.a, add32 h.b st.b, add32 h.c st.c, add32 h.d st.d⟩

/-- MD5 digest bytes of a message. -/
def md5Bytes (msg : List Nat) : List Nat :=
  let padded := msg ++ 128 :: List.replicate (padTail msg.length) 0 ++
    leBytes 8 ((msg.length * 8) % 18446744073709551616)
  let f := (chunks64 padded).foldl md5Compress
    ⟨1732584193, 4023233417, 2562383102, 271733878⟩
  leBytes 4 f.a ++ leBytes 4 f.b ++ leBytes 4 f.c ++ leBytes 4 f.d

/-- Python `hashlib.md5(msg).hexdigest()`. -/
def md5Hex (msg : List Nat) : String := bytesToHex (md5Bytes msg)

/-! ## SHA-256 (FIPS 180-4), used by `_generate_cache_key` on the whole key -/

/-- The 64 SHA-256 round constants. -/
def shaK : List Nat := [
  1116352408, 1899447441, 3049323471, 3921009573, 961987163,
  1508970993, 2453635748, 2870763221, 3624381080, 310598401,
  607225278, 1426881987, 1925078388, 2162078206, 2614888103,
  3248222580, 3835390401, 4022224774, 264347078, 604807628,
  770255983, 1249150122, 1555081692, 1996064986, 2554220882,
  2821834349, 2952996808, 3210313671, 3336571891, 3584528711,
  113926993, 338241895, 666307205, 773529912, 1294757372,
  1396182291, 1695183700, 1986661051, 2177026350, 2456956037,
  2730485921, 2820302411, 3259730800, 3345764771, 3516065817,
  3600352804, 4094571909, 275423344, 430227734, 506948616,
  659060556, 883997877, 958139571, 1322822218, 1537002063,
  1747873779, 1955562222, 2024104815, 2227730452, 2361852424,
  2428436474, 2756734187, 3204031479, 3329325298]

/-- SHA-256 working state. -/
structure SHASt where
  a : Nat
  b : Nat
  c : Nat
  d : Nat
  e : Nat
  f : Nat
  g : Nat
  h : Nat

/-- One SHA-256 round with round constant `k` and schedule word `w`. -/
def shaRound (st : SHASt) (kw : Nat × Nat) : SHASt :=
  let s1 := rotr32 st.e 6 ^^^ rotr32 st.e 11 ^^^ rotr32 st.e 25
  let ch := (st.e &&& st.f) ^^^ (not32 st.e &&& st.g)
  let t1 := add32 (add32 (add32 st.h s1) (add32 ch kw.1)) kw.2
  let s0 := rotr32 st.a 2 ^^^ rotr32 st.a 13 ^^^ rotr32 st.a 22
  let maj := (st.a &&& st.b) ^^^ (st.a &&& st.c) ^^^ (st.b &&& st.c)
  let t2 := add32 s0 maj
  ⟨add32 t1 t2, st.a, st.b, st.c, add32 st.d t1, st.e, st.f, st.g⟩

/-- The 16 big-endian message words of one 64-byte chunk. -/
def chunkWordsBE (chunk : List Nat) : List Nat :=
  (List.range 16).map fun j =>
    16777216 * chunk.getD (4 * j) 0 + 65536 * chunk.getD (4 * j + 1) 0 +
      256 * chunk.getD (4 * j + 2) 0 + chunk.getD (4 * j + 3) 0

/-- Extension of the 16 chunk words to the 64-word SHA-256 message schedule. -/
def shaSchedule (w0 : List Nat) : List Nat :=
  (List.range 48).foldl (fun acc _ =>
    let i := acc.length
    let x15 := acc.getD (i - 15) 0
    let x2 := acc.getD (i - 2) 0
    let s0 := rotr32 x15 7 ^^^ rotr32 x15 18 ^^^ (x15 >>> 3)
    let s1 := rotr32 x2 17 ^^^ rotr32 x2 19 ^^^ (x2 >>> 10)
    acc ++ [add32 (add32 (acc.getD (i - 16) 0) s0) (add32 (acc.getD (i - 7) 0) s1)]) w0

/-- SHA-256 compression of one 64-byte chunk. -/
def shaCompress (hs : SHASt) (chunk : List Nat) : SHASt :=
  let w := shaSchedule (chunkWordsBE chunk)
  let st := (shaK.zip w).foldl shaRound hs
  ⟨add32 hs.a st.a, add32 hs.b st.b, add32 hs.c st.c, add32 hs.d st.d,
    add32 hs.e st.e, add32 hs.f st.f, add32 hs.g st.g, add32 hs.h st.h⟩

/-- SHA-256 digest bytes of a message. -/
def sha256Bytes (msg : List Nat) : List Nat :=
  let padded := msg ++ 128 :: List.replicate (padTail msg.length) 0 ++
    beBytes 8 ((msg.length * 8) % 18446744073709551616)
  let f := (chunks64 padded).foldl shaCompress
    ⟨1779033703, 3144134277, 1013904242, 2773480762,
      1359893119, 2600822924, 528734635, 1541459225⟩
  beBytes 4 f.a ++ beBytes 4 f.b ++ beBytes 4 f.c ++ beBytes 4 f.d ++
    beBytes 4 f.e ++ beBytes 4 f.f ++ beBytes 4 f.g ++ beBytes 4 f.h

/-- Python `hashlib.sha256(msg).hexdigest()`. -/
def sha256Hex (msg : List Nat) : String := bytesToHex (sha256Bytes msg)

/-- Model of `SmartContractRAGPipeline._generate_cache_key` (rag_pipeline.py 566-569):
the SHA-256 hex digest of the address, a colon, and the MD5 hex digest of the
code.  The address is used verbatim. -/
def generate_cache_key (address code : String) : String :=
  sha256Hex (strBytes (address ++ ":" ++ md5Hex (strBytes code)))

set_option maxRecDepth 10000

/-! ## Data model of the sub-analysis results

A runner in `rag_pipeline.py` returns a Python dict.  `_combine_analysis_results`
inspects only whether a gathered item is a dict (and not an exception object),
whether it has an `error` key, and its `confidence` value; the rest of the
payload is carried verbatim.  A dict is modelled by `SubDict`: `vulns` stands
for the vulnerability entries contained in its payload (for the static path,
the findings parsed out of the Gemini response) and `raw` for the remaining
payload text, which no claim inspects further. -/

/-- A vulnerability entry, shaped after the dicts built in `main.py` and
carried inside analysis payloads. -/
structure Vuln where
  severity : String
  title : String
  description : String
  recommendation : Option String := none
  location : Option String := none
deriving DecidableEq, Repr

/-- One sub-analysis result dict as returned by the four runners of
`SmartContractRAGPipeline`. -/
structure SubDict where
  type : String := ""
  error : Option String := none
  confidence : Option ℚ := none
  vulns : List Vuln := []
  raw : String := ""
deriving DecidableEq, Repr

/-- One element of the list returned by
`asyncio.gather(..., return_exceptions=True)`: either the dict a runner
returned, or the exception object of a runner that raised. -/
inductive GatherItem where
  | dict (d : SubDict)
  | exn (msg : String)
deriving DecidableEq, Repr

/-! ## The four sub-analysis runners of `SmartContractRAGPipeline`

Each runner body is `try: ... except Exception as e: return {..., "error": str(e)}`.
The outcome of the external call made inside the `try` block is the `Except`
argument; the match on it mirrors the `try/except`. -/

/-- Model of `SmartContractRAGPipeline._static_analysis` (rag_pipeline.py 398-427):
queries Gemini with a static-analysis prompt; on success the parsed response
is the findings payload with confidence 0.85, on any exception the error
string is returned in the dict. -/
def static_analysis (gemini : Except String String) : SubDict :=
  match gemini with
  | .ok response =>
      { type := "static_analysis", confidence := some (85 / 100), raw := response }
  | .error e => { type := "static_analysis", error := some e }

/-- Model of `SmartContractRAGPipeline._dynamic_analysis` (rag_pipeline.py 429-448):
without transaction data the run is skipped (a dict with neither `error` nor
`confidence`); otherwise the Tenderly simulation outcome is wrapped with
confidence 0.9, and an exception becomes an error dict. -/
def dynamic_analysis (txData : Option String) (sim : Except String String) : SubDict :=
  match txData with
  | none =>
      { type := "dynamic_analysis", raw := "skipped: No transaction data provided" }
  | some _ =>
      match sim with
      | .ok s => { type := "dynamic_analysis", confidence := some (9 / 10), raw := s }
      | .error e => { type := "dynamic_analysis", error := some e }

/-- Model of `SmartContractRAGPipeline._rag_analysis` (rag_pipeline.py 450-474):
runs the retrieval QA chain; confidence 0.8 on success. -/
def rag_analysis (qa : Except String String) : SubDict :=
  match qa with
  | .ok response =>
      { type := "rag_analysis", confidence := some (8 / 10), raw := response }
  | .error e => { type := "rag_analysis", error := some e }

/-- Model of `SmartContractRAGPipeline._gas_analysis` (rag_pipeline.py 476-504):
queries Gemini with the gas prompt; confidence 0.75 on success. -/
def gas_analysis (gemini : Except String String) : SubDict :=
  match gemini with
  | .ok response =>
      { type := "gas_analysis", confidence := some (75 / 100), raw := response }
  | .error e => { type := "gas_analysis", error := some e }

/-! ## `_combine_analysis_results` -/

/-- The `valid_results` filter of `_combine_analysis_results`
(rag_pipeline.py 553): keep items that are dicts and have no `error` key. -/
def valid_results (results : List GatherItem) : List SubDict :=
  results.filterMap fun r =>
    match r with
    | .dict d => if d.error = none then some d else none
    | .exn _ => none

/-- The combined report dict built by `_combine_analysis_results`
(rag_pipeline.py 536-564).  The `analysis_timestamp` field (a wall-clock
read) is omitted; every other field of the `combined` dict is present. -/
structure Combined where
  overall_risk_score : ℚ
  analyses : List SubDict
  total_vulnerabilities : Nat
  critical_issues : Nat
  high_severity : Nat
  medium_severity : Nat
  low_severity : Nat
  recommendations : List String
  confidence_score : ℚ
deriving DecidableEq, Repr

/-- Model of `SmartContractRAGPipeline._combine_analysis_results`
(rag_pipeline.py 536-564): the `combined` dict keeps its initial values for
every field except `analyses`, which receives each valid result verbatim, and
`confidence_score`, which becomes `np.mean` of the `confidence` values
(`get` with default 0) of the valid results, or 0 when there are none. -/
def combine_analysis_results (results : List GatherItem) : Combined :=
  let valid := valid_results results
  { overall_risk_score := 0
    analyses := valid
    total_vulnerabilities := 0
    critical_issues := 0
    high_severity := 0
    medium_severity := 0
    low_severity := 0
    recommendations := []
    confidence_score :=
      if valid.isEmpty then 0
      else (valid.map fun r => r.confidence.getD 0).sum / (valid.length : ℚ) }

/-- Spec-side notion: the Success sub-results are the gathered items that are
result dicts carrying no error. -/
def success_results (results : List GatherItem) : List SubDict :=
  results.filterMap fun r =>
    match r with
    | .dict d => if d.error.isNone then some d else none
    | .exn _ => none

/-- Spec-side notion: the arithmetic mean of a list of values, 0 for the
empty list. -/
def arith_mean (l : List ℚ) : ℚ := if l = [] then 0 else l.sum / (l.length : ℚ)

/-- Number of vulnerability entries with a given title and location that
appear in the payloads carried by the analyses of a combined report. -/
def count_vuln_entries (c : Combined) (title : String) (loc : Option String) : Nat :=
  (c.analyses.map fun d =>
    (d.vulns.filter fun v => v.title = title ∧ v.location = loc).length).sum

/-! ## The result cache of `SmartContractRAGPipeline` -/

/-- One value of `self.cache` (rag_pipeline.py 381-385): the report, the
insertion time, and the ttl.  `_is_cache_valid` tolerates entries missing the
`timestamp` or `ttl` key, hence the `Option` fields. -/
structure CacheEntry where
  data : Combined
  timestamp : Option Int
  ttl : Option Int
deriving DecidableEq, Repr

/-- Model of `SmartContractRAGPipeline._is_cache_valid` (rag_pipeline.py 571-577):
false when `timestamp` or `ttl` is missing, otherwise true exactly when the
current time is strictly before `timestamp + ttl`. -/
def is_cache_valid (e : CacheEntry) (now : Int) : Bool :=
  match e.timestamp, e.ttl with
  | some t, some d => decide (now < t + d)
  | _, _ => false

/-- Lookup in the cache dict, modelled as an association list where the most
recently inserted binding for a key comes first. -/
def lookupEntry : List (String × CacheEntry) → String → Option CacheEntry
  | [], _ => none
  | (k, e) :: rest, key => if k = key then some e else lookupEntry rest key

/-- Python dict assignment `self.cache[key] = entry`: the new binding shadows
any previous one. -/
def insertEntry (cache : List (String × CacheEntry)) (key : String)
    (e : CacheEntry) : List (String × CacheEntry) :=
  (key, e) :: cache

/-- The cache check at the head of `analyze_contract` (rag_pipeline.py
354-362): if the key is present and `_is_cache_valid` holds, the cached
`data` is returned, otherwise the analysis falls through to recomputation. -/
def cache_lookup (cache : List (String × CacheEntry)) (key : String)
    (now : Int) : Option Combined :=
  match lookupEntry cache key with
  | some e => if is_cache_valid e now then some e.data else none
  | none => none

/-- Model of `SmartContractRAGPipeline.analyze_contract` (rag_pipeline.py 344-396) as
a function of the cache state, the current time, the request, and the
gathered sub-analysis results of this run: on a valid cache hit the cached
report is returned and the cache is unchanged; otherwise the gathered results
are combined and the report is stored unconditionally under the fingerprint
with a ttl of one hour (3600 seconds). -/
def analyze_contract (cache : List (String × CacheEntry)) (now : Int)
    (address code : String) (results : List GatherItem) :
    Combined × List (String × CacheEntry) :=
  let key := generate_cache_key address code
  match cache_lookup cache key now with
  | some data => (data, cache)
  | none =>
      let c := combine_analysis_results results
      (c, insertEntry cache key ⟨c, some now, some 3600⟩)

/-! ## `perform_static_analysis` and `perform_dynamic_analysis` (main.py) -/

/-- The contract details assembled by `fetch_contract_details` (main.py
132-170) that `perform_static_analysis` reads: the verification flag, the
serialized source (`json.dumps` of the source dict; `none` models a missing
or empty source dict, which is falsy in Python), and two metadata fields. -/
structure ContractDetails where
  is_verified : Bool
  source : Option String
  contract_name : String := "Unknown"
  compiler_version : String := "Unknown"
deriving DecidableEq, Repr

/-- The static analysis result dict of `perform_static_analysis` (main.py
189-206); the `timestamp` field (a wall-clock read) is omitted. -/
structure StaticResult where
  vulnerabilities : List Vuln
  optimizations : List String
  security_score : ℚ
  warnings : List String
  is_verified : Bool
  contract_type : String
  compiler_version : String
deriving DecidableEq, Repr

/-- The selfdestruct finding of `perform_static_analysis` (main.py 215-221). -/
def selfDestructVuln : Vuln :=
  { severity := "high"
    title := "Self-Destruct Function"
    description := "Contract contains selfdestruct which can lead to fund loss"
    recommendation := some "Avoid using selfdestruct unless absolutely necessary" }

/-- The delegatecall finding of `perform_static_analysis` (main.py 223-230). -/
def delegateCallVuln : Vuln :=
  { severity := "high"
    title := "DelegateCall Usage"
    description := "Contract uses delegatecall which can be dangerous if not used carefully"
    recommendation := some "Review delegatecall usage and ensure proper access controls" }

/-- The external-call finding of `perform_static_analysis` (main.py 232-239). -/
def reentrancyRiskVuln : Vuln :=
  { severity := "medium"
    title := "Potential Reentrancy Risk"
    description := "Contract makes external calls which could lead to reentrancy"
    recommendation := some "Use checks-effects-interactions pattern or reentrancy guards" }

/-- The per-finding score deduction of `perform_static_analysis` (main.py
244-248): -2 for high severity, -1 for medium, -0.5 otherwise. -/
def severityDeduction (v : Vuln) : ℚ :=
  if v.severity = "high" then -2 else if v.severity = "medium" then -1 else -(1 / 2)

/-- Model of `perform_static_analysis` (main.py 173-253) on successfully fetched
contract details.  For an unverified contract a single warning is appended
and the initialized results (score 0.0, no vulnerabilities) are returned.
For a verified contract the lower-cased serialized source is scanned for
`selfdestruct`, `delegatecall` and low-level external calls, and the security
score starts at 10.0, deducts per finding and floors at 0.0; it is 10.0 when
there are no findings.  The `except` fallback of the source (lines 255-274,
returning a canned demo result) is the path where fetching itself failed and
is outside this model. -/
def perform_static_analysis (cd : ContractDetails) : StaticResult :=
  if cd.is_verified = false then
    { vulnerabilities := []
      optimizations := []
      security_score := 0
      warnings := ["Contract source code is not verified. Static analysis is limited."]
      is_verified := cd.is_verified
      contract_type := cd.contract_name
      compiler_version := cd.compiler_version }
  else
    let vulns :=
      match cd.source with
      | none => []
      | some src =>
          let t := strLower src
          (if containsSub t "selfdestruct" then [selfDestructVuln] else []) ++
          (if containsSub t "delegatecall" then [delegateCallVuln] else []) ++
          (if containsSub t ".call" || containsSub t ".send" ||
              containsSub t ".transfer" then [reentrancyRiskVuln] else [])
    let score :=
      if vulns.isEmpty then 10
      else max 0 (10 + (vulns.map severityDeduction).sum)
    { vulnerabilities := vulns
      optimizations := []
      security_score := score
      warnings := []
      is_verified := cd.is_verified
      contract_type := cd.contract_name
      compiler_version := cd.compiler_version }

/-- The number of findings of a given severity in a list. -/
def countSev (l : List Vuln) (sev : String) : ℚ :=
  ((l.filter fun v => v.severity = sev).length : ℚ)

/-- The dynamic analysis result dict of `perform_dynamic_analysis` (main.py
319-350); the `timestamp` field is omitted and the trace and logs are carried
opaquely. -/
structure DynResult where
  simulation_id : Option String
  gas_used : Nat
  status : Bool
  error : Option String
deriving DecidableEq, Repr

/-- The outcome of the Tenderly calls made inside `perform_dynamic_analysis`:
the simulation result, a `SimulationFailedError`, or any other exception. -/
inductive DynOutcome where
  | ok (id : Option String) (gasUsed : Nat) (status : Bool)
  | simFailed (msg : String)
  | unexpected (msg : String)
deriving DecidableEq, Repr

/-- Model of `perform_dynamic_analysis` (main.py 276-350): the simulation outcome is
mapped into the result dict; a `SimulationFailedError` and any unexpected
exception are both converted into an error-tagged dict, never re-raised. -/
def perform_dynamic_analysis (outcome : DynOutcome) : DynResult :=
  match outcome with
  | .ok id gasUsed status =>
      { simulation_id := id, gas_used := gasUsed, status := status, error := none }
  | .simFailed m =>
      { simulation_id := none, gas_used := 0, status := false, error := some m }
  | .unexpected m =>
      { simulation_id := none, gas_used := 0, status := false,
        error := some ("Unexpected error: " ++ m) }

/-! ## `TenderlyClient` network resolution (tenderly_new.py) -/

/-- One value of the `network_map` dict (tenderly_new.py 54-66). -/
structure NetworkInfo where
  name : String
  explorer : String
deriving DecidableEq, Repr

/-- Model of `TenderlyClient.network_map` (tenderly_new.py 54-66), in insertion
order. -/
def network_map : List (Nat × NetworkInfo) := [
  (1, ⟨"mainnet", "https://etherscan.io"⟩),
  (5, ⟨"goerli", "https://goerli.etherscan.io"⟩),
  (137, ⟨"polygon", "https://polygonscan.com"⟩),
  (42161, ⟨"arbitrum", "https://arbiscan.io"⟩),
  (10, ⟨"optimism", "https://optimistic.etherscan.io"⟩),
  (56, ⟨"bsc", "https://bscscan.com"⟩),
  (43114, ⟨"avalanche", "https://snowtrace.io"⟩),
  (250, ⟨"fantom", "https://ftmscan.com"⟩),
  (100, ⟨"gnosis", "https://gnosisscan.io"⟩),
  (42170, ⟨"arbitrum-nova", "https://nova.arbiscan.io"⟩)]

/-- The `Union[str, int]` argument of `_get_network_id`. -/
inductive NetworkArg where
  | int (n : Int)
  | str (s : String)
deriving DecidableEq, Repr

/-- Python `str(network)` on the argument. -/
def argString : NetworkArg → String
  | .int n => intRepr n
  | .str s => s

/-- Model of `TenderlyClient._get_network_id` (tenderly_new.py 285-311): an `int`
argument or an all-digit string is first looked up as a chain id; failing
that, the lower-cased argument is compared against the lower-cased network
names in insertion order; if nothing matches, a `ValueError` is raised,
modelled as `Except.error`. -/
def get_network_id (network : NetworkArg) : Except String Nat :=
  let asInt : Option Int :=
    match network with
    | .int n => some n
    | .str s => if isDigitStr s then some (strToNat s : Int) else none
  let direct : Option Nat :=
    match asInt with
    | some n => (network_map.find? fun p => (p.1 : Int) == n).map fun p => p.1
    | none => none
  match direct with
  | some k => Except.ok k
  | none =>
      let networkLower := strLower (argString network)
      match network_map.find? fun p => strLower p.2.name == networkLower with
      | some p => Except.ok p.1
      | none => Except.error ("Unsupported network: " ++ argString network)

/-! ## Concrete scenario values used by the claim theorems -/

/-- Equality on resolution results is decidable. -/
instance : DecidableEq (Except String Nat) := fun x y =>
  match x, y with
  | .ok a, .ok b =>
      if h : a = b then .isTrue (by rw [h]) else .isFalse (by simp [h])
  | .error a, .error b =>
      if h : a = b then .isTrue (by rw [h]) else .isFalse (by simp [h])
  | .ok _, .error _ => .isFalse (by simp)
  | .error _, .ok _ => .isFalse (by simp)

/-- All four sub-analyses failing, each carrying an error string, as gathered
by `analyze_contract`. -/
def allFailGather : List GatherItem := [
  .dict (static_analysis (.error "Gemini query failed")),
  .dict (dynamic_analysis (some "0x") (.error "Tenderly unreachable")),
  .dict (rag_analysis (.error "vector store unavailable")),
  .dict (gas_analysis (.error "Gemini query failed"))]

/-- Whether a gathered item carries an error: an error-tagged dict or a
raised exception. -/
def item_has_error : GatherItem → Bool
  | .dict d => d.error.isSome
  | .exn _ => true

/-- A vulnerability reported identically by two different sub-analyses. -/
def dupVuln : Vuln :=
  { severity := "medium"
    title := "Reentrancy Vulnerability"
    description := "Potential reentrancy vulnerability found in withdraw function"
    location := some "contracts/Vault.sol:42-58" }

/-- A Success static result whose payload carries `dupVuln`. -/
def dupDict1 : SubDict :=
  { type := "static_analysis", confidence := some (85 / 100), vulns := [dupVuln] }

/-- A Success RAG result whose payload carries `dupVuln`. -/
def dupDict2 : SubDict :=
  { type := "rag_analysis", confidence := some (8 / 10), vulns := [dupVuln] }

/-- The combined report of an all-clear static success and a successful
dynamic simulation. -/
def allClearCombined : Combined :=
  combine_analysis_results [.dict (static_analysis (.ok "No issues found.")),
    .dict (dynamic_analysis (some "0x") (.ok "simulation succeeded"))]

/-- The implementation matches the standard MD5 test vector for the empty
message. -/
example : md5Hex (strBytes "") = "d41d8cd98f00b204e9800998ecf8427e" := by decide

/-- The implementation matches the standard SHA-256 test vector for the
message abc. -/
example :
    sha256Hex (strBytes "abc") =
      "ba7816bf8f01cfea414140de5dae2223b00361a396177a9cb410ff61f20015ad" := by
  decide

/-! ## Helper lemmas -/

theorem valid_results_append (a b : List GatherItem) :
    valid_results (a ++ b) = valid_results a ++ valid_results b :=
  List.filterMap_append a b _

theorem valid_results_exn_cons (m : String) (rest : List GatherItem) :
    valid_results (.exn m :: rest) = valid_results rest := by
  simp [valid_results, List.filterMap_cons]

theorem valid_results_map_dict (l : List SubDict) (h : ∀ d ∈ l, d.error = none) :
    valid_results (l.map GatherItem.dict) = l := by
  induction l with
  | nil => rfl
  | cons d tl ih =>
      have hd : d.error = none := h d (by simp)
      have htl : ∀ x ∈ tl, x.error = none := fun x hx => h x (by simp [hx])
      simp [valid_results, List.filterMap_cons, hd] at ih ⊢
      exact ih htl

theorem success_results_eq_valid (results : List GatherItem) :
    success_results results = valid_results results := by
  unfold success_results valid_results
  congr 1
  funext r
  cases r with
  | dict d => cases h : d.error <;> simp [h, Option.isNone]
  | exn m => rfl

/-! ## Claim theorems -/

/-- C1: the claim states that a run whose sub-results all carry errors is
never stored in the result cache.  Counterexample: starting from an empty
cache, a run of `analyze_contract` in which every gathered sub-result carries
an error does store the combined failed report, and the subsequent lookup by
the fingerprint finds an entry. -/
theorem c1_all_failure_is_cached :
    (∀ r ∈ allFailGather, item_has_error r = true) ∧
    lookupEntry (analyze_contract [] 0 "0x1234" "contract C" allFailGather).2
      (generate_cache_key "0x1234" "contract C") ≠ none := by
  refine ⟨by decide, ?_⟩
  simp [analyze_contract, cache_lookup, lookupEntry, insertEntry]

/-- C1 (amended): on a cache miss, `analyze_contract` delivers the combined
report to the caller and stores it under the fingerprint with a one-hour ttl
even when every sub-result carries an error; the subsequent lookup finds that
entry. -/
theorem c1_analyze_contract_stores_all_failure
    (cache : List (String × CacheEntry)) (now : Int) (address code : String)
    (results : List GatherItem)
    (hmiss : lookupEntry cache (generate_cache_key address code) = none)
    (hfail : ∀ r ∈ results, item_has_error r = true) :
    (analyze_contract cache now address code results).1 =
      combine_analysis_results results ∧
    lookupEntry (analyze_contract cache now address code results).2
      (generate_cache_key address code) =
      some ⟨combine_analysis_results results, some now, some 3600⟩ := by
  simp [analyze_contract, cache_lookup, hmiss, insertEntry, lookupEntry]

/-- Witness for the amended C1 at a concrete all-failure run from the empty
cache. -/
theorem c1_analyze_contract_stores_all_failure_witness :
    lookupEntry (analyze_contract [] 0 "0x1234" "contract C" allFailGather).2
      (generate_cache_key "0x1234" "contract C") =
      some ⟨combine_analysis_results allFailGather, some 0, some 3600⟩ :=
  (c1_analyze_contract_stores_all_failure [] 0 "0x1234" "contract C"
    allFailGather rfl (by decide)).2

/-- C2: each runner converts every internal error into an error-tagged result
dict instead of raising, and an exception object produced by one concurrently
gathered sub-analysis does not abort the others: the combined report still
contains all remaining error-free results, in order. -/
theorem c2_runner_errors_are_data_and_isolated :
    (∀ e, (static_analysis (.error e)).error = some e) ∧
    (∀ td e, (dynamic_analysis (some td) (.error e)).error = some e) ∧
    (∀ e, (rag_analysis (.error e)).error = some e) ∧
    (∀ e, (gas_analysis (.error e)).error = some e) ∧
    (∀ m, (perform_dynamic_analysis (.unexpected m)).error =
      some ("Unexpected error: " ++ m)) ∧
    (∀ (l₁ l₂ : List SubDict) (m : String),
      (∀ d ∈ l₁, d.error = none) → (∀ d ∈ l₂, d.error = none) →
      (combine_analysis_results
        (l₁.map GatherItem.dict ++ GatherItem.exn m :: l₂.map GatherItem.dict)).analyses
        = l₁ ++ l₂) := by
  refine ⟨fun e => rfl, fun td e => rfl, fun e => rfl, fun e => rfl,
    fun m => rfl, fun l₁ l₂ m h₁ h₂ => ?_⟩
  show valid_results _ = _
  rw [valid_results_append, valid_results_exn_cons,
    valid_results_map_dict l₁ h₁, valid_results_map_dict l₂ h₂]

/-- Witness for C2: with the static runner succeeding, one gathered exception
object, and the RAG and gas runners succeeding, the combined report carries
exactly the three surviving results. -/
theorem c2_runner_errors_are_data_and_isolated_witness :
    (combine_analysis_results [GatherItem.dict (static_analysis (.ok "a")),
      GatherItem.exn "boom", GatherItem.dict (rag_analysis (.ok "b")),
      GatherItem.dict (gas_analysis (.ok "c"))]).analyses =
      [static_analysis (.ok "a"), rag_analysis (.ok "b"), gas_analysis (.ok "c")] :=
  c2_runner_errors_are_data_and_isolated.2.2.2.2.2
    [static_analysis (.ok "a")] [rag_analysis (.ok "b"), gas_analysis (.ok "c")]
    "boom" (by decide) (by decide)

/-- C3: the claim states that merging deduplicates vulnerability entries by
(title, location).  Counterexample: two Success sub-results that each carry a
vulnerability with the same title and location produce a merged report
containing that entry twice, not exactly once. -/
theorem c3_no_dedup_counterexample :
    count_vuln_entries (combine_analysis_results [.dict dupDict1, .dict dupDict2])
      "Reentrancy Vulnerability" (some "contracts/Vault.sol:42-58") = 2 ∧
    ¬(count_vuln_entries (combine_analysis_results [.dict dupDict1, .dict dupDict2])
      "Reentrancy Vulnerability" (some "contracts/Vault.sol:42-58") = 1) := by
  constructor <;> decide

/-- C3 (amended): `_combine_analysis_results` performs no deduplication at
all: every error-free sub-result is appended to the report verbatim, so an
entry shared by two Success sub-results appears once per contributor, and the
summary counter stays 0. -/
theorem c3_combine_keeps_duplicates (d₁ d₂ : SubDict)
    (h₁ : d₁.error = none) (h₂ : d₂.error = none) :
    (combine_analysis_results [.dict d₁, .dict d₂]).analyses = [d₁, d₂] ∧
    (∀ t loc, count_vuln_entries (combine_analysis_results [.dict d₁, .dict d₂]) t loc =
      (d₁.vulns.filter fun v => v.title = t ∧ v.location = loc).length +
      (d₂.vulns.filter fun v => v.title = t ∧ v.location = loc).length) ∧
    (combine_analysis_results [.dict d₁, .dict d₂]).total_vulnerabilities = 0 := by
  refine ⟨?_, fun t loc => ?_, ?_⟩ <;>
    simp [combine_analysis_results, valid_results, List.filterMap_cons, h₁, h₂,
      count_vuln_entries]

/-- Witness for the amended C3 at the two concrete duplicate-carrying
results. -/
theorem c3_combine_keeps_duplicates_witness :
    (combine_analysis_results [.dict dupDict1, .dict dupDict2]).analyses =
      [dupDict1, dupDict2] :=
  (c3_combine_keeps_duplicates dupDict1 dupDict2 rfl rfl).1

/-- C4: the claim states that a merge of an all-clear static result with no
dynamic failure scores at or near the maximum of the 0-100 scale.
Counterexample: the merged `overall_risk_score` of such a run is 0, the
minimum of the scale. -/
theorem c4_all_clear_scores_zero :
    allClearCombined.overall_risk_score = 0 ∧
    ¬(90 ≤ allClearCombined.overall_risk_score) := by
  constructor <;> decide

/-- C4 (amended): `overall_risk_score` is the constant 0 — trivially monotone
under adding findings, but an all-clear merge also scores 0 rather than at or
near the maximum. -/
theorem c4_risk_score_constant_zero (rs₁ rs₂ : List GatherItem) :
    (combine_analysis_results rs₁).overall_risk_score = 0 ∧
    (combine_analysis_results rs₂).overall_risk_score ≤
      (combine_analysis_results rs₁).overall_risk_score := by
  constructor <;> simp [combine_analysis_results]

/-- C5: the merged `confidence_score` is the arithmetic mean of the
confidence values (with Python default 0 for a missing key) of exactly the
Success sub-results, and 0 when there is no Success sub-result. -/
theorem c5_confidence_is_mean_of_successes (results : List GatherItem) :
    (combine_analysis_results results).confidence_score =
      arith_mean ((success_results results).map fun d => d.confidence.getD 0) ∧
    (success_results results = [] →
      (combine_analysis_results results).confidence_score = 0) := by
  have hsv := success_results_eq_valid results
  constructor
  · simp only [combine_analysis_results, hsv, arith_mean]
    rcases h : valid_results results with _ | ⟨d, tl⟩ <;>
      simp [h, List.length_map]
  · intro h
    rw [hsv] at h
    simp [combine_analysis_results, h]

/-- Witness for C5 at a run with one Success and one Failure, and at an
all-failure run. -/
theorem c5_confidence_is_mean_of_successes_witness :
    ((combine_analysis_results [GatherItem.dict (static_analysis (.ok "x")),
        GatherItem.dict (rag_analysis (.error "down"))]).confidence_score =
      arith_mean ((success_results [GatherItem.dict (static_analysis (.ok "x")),
        GatherItem.dict (rag_analysis (.error "down"))]).map
          fun d => d.confidence.getD 0)) ∧
    (success_results [GatherItem.exn "boom"] = [] ∧
      (combine_analysis_results [GatherItem.exn "boom"]).confidence_score = 0) :=
  ⟨(c5_confidence_is_mean_of_successes _).1,
    by decide, (c5_confidence_is_mean_of_successes _).2 (by decide)⟩

/-- C7: for an unverified contract, `perform_static_analysis` returns a
normal (non-failure) result with exactly one warning about the unverified
source, a security score of 0.0, and no vulnerabilities; the function is
total, so no exception is raised on this path. -/
theorem c7_unverified_single_warning (cd : ContractDetails)
    (h : cd.is_verified = false) :
    (perform_static_analysis cd).warnings =
      ["Contract source code is not verified. Static analysis is limited."] ∧
    (perform_static_analysis cd).warnings.length = 1 ∧
    (perform_static_analysis cd).security_score = 0 ∧
    (perform_static_analysis cd).vulnerabilities = [] := by
  simp [perform_static_analysis, h]

/-- Witness for C7 at a concrete unverified contract. -/
theorem c7_unverified_single_warning_witness :
    (⟨false, none, "Unknown", "Unknown"⟩ : ContractDetails).is_verified = false ∧
    (perform_static_analysis ⟨false, none, "Unknown", "Unknown"⟩).security_score = 0 ∧
    (perform_static_analysis ⟨false, none, "Unknown", "Unknown"⟩).warnings.length = 1 :=
  ⟨rfl, (c7_unverified_single_warning _ rfl).2.2.1,
    (c7_unverified_single_warning _ rfl).2.1⟩

/-- C9: a cached report is served exactly while unexpired: the cache check
returns the stored report when the key is present and the current time is
strictly before `timestamp + ttl`, and returns nothing when the key is absent
or the expiry instant has been reached. -/
theorem c9_cache_ttl_boundary (cache : List (String × CacheEntry)) (key : String)
    (now t d : Int) (report : Combined) :
    ((lookupEntry cache key = some ⟨report, some t, some d⟩ ∧ now < t + d) →
      cache_lookup cache key now = some report) ∧
    (lookupEntry cache key = none → cache_lookup cache key now = none) ∧
    ((lookupEntry cache key = some ⟨report, some t, some d⟩ ∧ t + d ≤ now) →
      cache_lookup cache key now = none) := by
  refine ⟨fun ⟨he, hlt⟩ => ?_, fun he => ?_, fun ⟨he, hge⟩ => ?_⟩
  · simp [cache_lookup, he, is_cache_valid, hlt]
  · simp [cache_lookup, he]
  · simp [cache_lookup, he, is_cache_valid, not_lt.mpr hge]

/-- Witness for C9: a one-entry cache serves the report before expiry, misses
at the expiry instant, and misses on an absent key. -/
theorem c9_cache_ttl_boundary_witness :
    cache_lookup [("k", ⟨combine_analysis_results [], some 0, some 10⟩)] "k" 5 =
      some (combine_analysis_results []) ∧
    cache_lookup [("k", ⟨combine_analysis_results [], some 0, some 10⟩)] "k" 10 =
      none ∧
    cache_lookup [] "k" 5 = none :=
  ⟨(c9_cache_ttl_boundary _ "k" 5 0 10 _).1 ⟨by decide, by decide⟩,
    (c9_cache_ttl_boundary _ "k" 10 0 10 (combine_analysis_results [])).2.2
      ⟨by decide, by decide⟩,
    (c9_cache_ttl_boundary _ "k" 5 0 10 (combine_analysis_results [])).2.1 rfl⟩

/-- C6: for a verified contract, the static security score equals
`max 0 (10 - 2*high - 1*medium - 0.5*low)` over the findings the scan
produced, and is 10 when there are no findings. -/
theorem c6_static_score_formula (cd : ContractDetails)
    (h : cd.is_verified = true) :
    (perform_static_analysis cd).security_score =
      max 0 (10 - 2 * countSev (perform_static_analysis cd).vulnerabilities "high"
        - countSev (perform_static_analysis cd).vulnerabilities "medium"
        - (1 / 2) * countSev (perform_static_analysis cd).vulnerabilities "low") ∧
    ((perform_static_analysis cd).vulnerabilities = [] →
      (perform_static_analysis cd).security_score = 10) := by
  obtain ⟨v, src, cn, cv⟩ := cd
  simp only at h
  subst h
  cases src with
  | none =>
      constructor
      · simp [perform_static_analysis, countSev]
      · intro _
        simp [perform_static_analysis]
  | some s =>
      by_cases h1 : containsSub (strLower s) "selfdestruct" = true <;>
      by_cases h2 : containsSub (strLower s) "delegatecall" = true <;>
      by_cases h3 : (containsSub (strLower s) ".call" || containsSub (strLower s) ".send"
        || containsSub (strLower s) ".transfer") = true <;>
      constructor <;>
      simp [perform_static_analysis, h1, h2, h3, countSev, severityDeduction,
        selfDestructVuln, delegateCallVuln, reentrancyRiskVuln, List.filter] <;>
      norm_num

/-- Witness for C6 at a verified source containing a selfdestruct and a
low-level call. -/
theorem c6_static_score_formula_witness :
    (⟨true, some "selfdestruct(owner) and msg.sender.call", "T", "0.8.0"⟩ :
      ContractDetails).is_verified = true ∧
    (perform_static_analysis
      ⟨true, some "selfdestruct(owner) and msg.sender.call", "T", "0.8.0"⟩).security_score =
      max 0 (10 - 2 * countSev (perform_static_analysis
        ⟨true, some "selfdestruct(owner) and msg.sender.call", "T", "0.8.0"⟩).vulnerabilities "high"
        - countSev (perform_static_analysis
          ⟨true, some "selfdestruct(owner) and msg.sender.call", "T", "0.8.0"⟩).vulnerabilities "medium"
        - (1 / 2) * countSev (perform_static_analysis
          ⟨true, some "selfdestruct(owner) and msg.sender.call", "T", "0.8.0"⟩).vulnerabilities "low") :=
  ⟨rfl, (c6_static_score_formula _ rfl).1⟩

/-- The hex digest of a byte list is twice as long as the list. -/
theorem bytesToHex_length (bs : List Nat) : (bytesToHex bs).length = 2 * bs.length := by
  show (bs.flatMap byteToHex).length = 2 * bs.length
  induction bs with
  | nil => rfl
  | cons b tl ih => simp [List.flatMap_cons, byteToHex] at ih ⊢; omega

/-- The function `leBytes` always produces exactly the requested number of bytes. -/
theorem leBytes_length : ∀ k v, (leBytes k v).length = k := by
  intro k
  induction k with
  | zero => intro v; rfl
  | succ n ih => intro v; simp [leBytes, ih]

/-- A SHA-256 digest is always 32 bytes. -/
theorem sha256Bytes_length (msg : List Nat) : (sha256Bytes msg).length = 32 := by
  simp [sha256Bytes, beBytes, leBytes_length]

/-- C8: the claim states that the fingerprint lower-cases the address before
hashing.  Counterexample: the cache keys of the upper-case address `0xAA` and
its lower-case form differ for the same code. -/
theorem c8_fingerprint_not_case_normalized :
    ¬(generate_cache_key "0xAA" "" = generate_cache_key (strLower "0xAA") "") := by
  decide

/-- C8 (amended): the fingerprint is a pure function of the verbatim address
and the code and always yields a fixed-length 64-character hex key; the
address is not lower-cased first. -/
theorem c8_fingerprint_fixed_length (address code : String) :
    (generate_cache_key address code).length = 64 := by
  show (bytesToHex _).length = 64
  rw [bytesToHex_length, sha256Bytes_length]

/-! ## Helper lemmas for network resolution -/

theorem toLowerChar_eq_self {c : Char} (h : c.toNat < 65) : toLowerChar c = c := by
  have hcond : ¬((65 ≤ c.toNat && c.toNat ≤ 90) = true) := by
    simp only [Bool.and_eq_true, decide_eq_true_eq, not_and]
    omega
  simp [toLowerChar, hcond]

theorem strLower_eq_self_of_small (s : String) (h : ∀ c ∈ s.data, c.toNat < 65) :
    strLower s = s := by
  show String.mk (s.data.map toLowerChar) = s
  have hmap : s.data.map toLowerChar = s.data := by
    rw [List.map_congr_left fun c hc => toLowerChar_eq_self (h c hc)]
    exact List.map_id s.data
  rw [hmap]

theorem lt65_of_isDigitChar {c : Char} (h : isDigitChar c = true) : c.toNat < 65 := by
  simp only [isDigitChar, Bool.and_eq_true, decide_eq_true_eq] at h
  omega

theorem strLower_of_digits {s : String} (h : isDigitStr s = true) : strLower s = s := by
  apply strLower_eq_self_of_small
  intro c hc
  simp only [isDigitStr, Bool.and_eq_true, List.all_eq_true] at h
  exact lt65_of_isDigitChar (h.2 c hc)

theorem digitChar_isDigit {d : Nat} (h : d < 10) : isDigitChar (digitChar d) = true := by
  interval_cases d <;> decide

theorem natDigitsAux_chars :
    ∀ fuel n c, c ∈ natDigitsAux fuel n → ∃ d, d < 10 ∧ c = digitChar d := by
  intro fuel
  induction fuel with
  | zero =>
      intro n c hc
      cases n <;> simp [natDigitsAux] at hc
  | succ g ih =>
      intro n c hc
      cases n with
      | zero => simp [natDigitsAux] at hc
      | succ m =>
          simp only [natDigitsAux, List.mem_append, List.mem_singleton] at hc
          rcases hc with hc | hc
          · exact ih _ _ hc
          · exact ⟨(m + 1) % 10, Nat.mod_lt _ (by norm_num), hc⟩

theorem natRepr_chars (n : Nat) : ∀ c ∈ (natRepr n).data, isDigitChar c = true := by
  unfold natRepr
  split
  · intro c hc
    simp at hc
    subst hc
    decide
  · intro c hc
    obtain ⟨d, hd, rfl⟩ := natDigitsAux_chars n n c hc
    exact digitChar_isDigit hd

theorem natDigitsAux_ne_nil (f m : Nat) : natDigitsAux (f + 1) (m + 1) ≠ [] := by
  simp [natDigitsAux]

theorem isDigitStr_natRepr (n : Nat) : isDigitStr (natRepr n) = true := by
  cases n with
  | zero => decide
  | succ m =>
      have hne : natDigits (m + 1) ≠ [] := natDigitsAux_ne_nil m m
      have hdata : (natRepr (m + 1)).data = natDigits (m + 1) := by
        unfold natRepr
        rw [if_neg (Nat.succ_ne_zero m)]
      unfold isDigitStr
      rw [Bool.and_eq_true]
      constructor
      · rw [hdata]
        cases h : natDigits (m + 1) with
        | nil => exact absurd h hne
        | cons a l => rfl
      · rw [List.all_eq_true, hdata]
        intro c hc
        obtain ⟨d, hd, rfl⟩ := natDigitsAux_chars (m + 1) (m + 1) c hc
        exact digitChar_isDigit hd

theorem natDigitsAux_val :
    ∀ fuel n, n ≤ fuel → ∀ a : Nat,
      (natDigitsAux fuel n).foldl (fun x c => 10 * x + (c.toNat - 48)) a =
        a * 10 ^ (natDigitsAux fuel n).length + n := by
  intro fuel
  induction fuel with
  | zero =>
      intro n hn a
      interval_cases n
      simp [natDigitsAux]
  | succ g ih =>
      intro n hn a
      cases n with
      | zero => simp [natDigitsAux]
      | succ m =>
          have hle : (m + 1) / 10 ≤ g := by
            have := Nat.div_lt_self (Nat.succ_pos m) (show 1 < 10 by norm_num)
            omega
          have hchar : (digitChar ((m + 1) % 10)).toNat = 48 + (m + 1) % 10 := by
            have hmod : (m + 1) % 10 < 10 := Nat.mod_lt _ (by norm_num)
            set d := (m + 1) % 10 with hd
            interval_cases d <;> rfl
          simp only [natDigitsAux, List.foldl_append, List.foldl_cons, List.foldl_nil,
            List.length_append, List.length_cons, List.length_nil]
          rw [ih _ hle a, hchar]
          have hsub : 48 + (m + 1) % 10 - 48 = (m + 1) % 10 := by omega
          rw [hsub]
          calc 10 * (a * 10 ^ (natDigitsAux g ((m + 1) / 10)).length + (m + 1) / 10) +
                (m + 1) % 10
              = a * (10 ^ (natDigitsAux g ((m + 1) / 10)).length * 10) +
                (10 * ((m + 1) / 10) + (m + 1) % 10) := by ring
            _ = a * 10 ^ ((natDigitsAux g ((m + 1) / 10)).length + (0 + 1)) + (m + 1) := by
                rw [← pow_succ, Nat.div_add_mod]

theorem strToNat_natRepr (n : Nat) : strToNat (natRepr n) = n := by
  cases n with
  | zero => decide
  | succ m =>
      show strToNat (natRepr (m + 1)) = m + 1
      unfold natRepr
      rw [if_neg (Nat.succ_ne_zero m)]
      show (natDigits (m + 1)).foldl (fun x c => 10 * x + (c.toNat - 48)) 0 = m + 1
      unfold natDigits
      rw [natDigitsAux_val (m + 1) (m + 1) le_rfl 0]
      simp

theorem intRepr_chars (n : Int) :
    ∀ c ∈ (intRepr n).data, (isDigitChar c || c == Char.ofNat 45) = true := by
  unfold intRepr
  split
  · intro c hc
    rw [String.data_append] at hc
    simp only [List.mem_append] at hc
    rcases hc with hc | hc
    · simp at hc
      subst hc
      decide
    · simp [natRepr_chars _ c hc]
  · intro c hc
    simp [natRepr_chars _ c hc]

theorem strLower_intRepr (n : Int) : strLower (intRepr n) = intRepr n := by
  apply strLower_eq_self_of_small
  intro c hc
  have := intRepr_chars n c hc
  simp only [Bool.or_eq_true, beq_iff_eq] at this
  rcases this with h | h
  · exact lt65_of_isDigitChar h
  · subst h; decide

/-- Every network id of the map is found first by its own id. -/
theorem network_map_find_id :
    ∀ p ∈ network_map,
      (network_map.find? fun q => (q.1 : Int) == (p.1 : Int)) = some p := by
  decide

/-- Every network name of the map is found first by its own name. -/
theorem network_map_find_name :
    ∀ p ∈ network_map,
      (network_map.find? fun q => strLower q.2.name == p.2.name) = some p := by
  decide

/-- The network names of the map are already lower-case. -/
theorem network_map_names_lower :
    ∀ p ∈ network_map, strLower p.2.name = p.2.name := by
  decide

/-- No network name of the map is an all-digit string. -/
theorem network_map_names_not_digit :
    ∀ p ∈ network_map, isDigitStr p.2.name = false := by
  decide

/-- Every network name of the map contains a character that is neither a
digit nor a minus sign, so no name is the decimal rendering of an integer. -/
theorem network_map_names_not_numeric :
    ∀ p ∈ network_map,
      (p.2.name.data.all fun c => isDigitChar c || c == Char.ofNat 45) = false := by
  decide

theorem gni_int_found (n : Int) (p : Nat × NetworkInfo)
    (hf : (network_map.find? fun q => (q.1 : Int) == n) = some p) :
    get_network_id (.int n) = .ok p.1 := by
  simp [get_network_id, hf]

theorem gni_int_notfound (n : Int)
    (hf : (network_map.find? fun q => (q.1 : Int) == n) = none)
    (hf2 : (network_map.find? fun q => strLower q.2.name == strLower (intRepr n)) = none) :
    get_network_id (.int n) = .error ("Unsupported network: " ++ intRepr n) := by
  simp [get_network_id, hf, hf2, argString]

theorem gni_str_digit_found (s : String) (hd : isDigitStr s = true)
    (p : Nat × NetworkInfo)
    (hf : (network_map.find? fun q => (q.1 : Int) == (strToNat s : Int)) = some p) :
    get_network_id (.str s) = .ok p.1 := by
  simp [get_network_id, hd, hf]

theorem gni_str_digit_notfound (s : String) (hd : isDigitStr s = true)
    (hf : (network_map.find? fun q => (q.1 : Int) == (strToNat s : Int)) = none)
    (hf2 : (network_map.find? fun q => strLower q.2.name == strLower s) = none) :
    get_network_id (.str s) = .error ("Unsupported network: " ++ s) := by
  simp [get_network_id, hd, hf, hf2, argString]

theorem gni_str_found (s : String) (hd : isDigitStr s = false) (p : Nat × NetworkInfo)
    (hf : (network_map.find? fun q => strLower q.2.name == strLower s) = some p) :
    get_network_id (.str s) = .ok p.1 := by
  simp [get_network_id, hd, hf, argString]

theorem gni_str_notfound (s : String) (hd : isDigitStr s = false)
    (hf : (network_map.find? fun q => strLower q.2.name == strLower s) = none) :
    get_network_id (.str s) = .error ("Unsupported network: " ++ s) := by
  simp [get_network_id, hd, hf, argString]

/-- C10: network resolution is a left inverse of the network naming table:
every chain id of the map resolves to itself as an `int` and as a digit
string, every name of the map resolves to its chain id in any letter case,
and any input that is neither a mapped id nor a mapped name resolves to a
`ValueError` rather than a default. -/
theorem c10_network_resolution :
    (∀ k info, (k, info) ∈ network_map →
      get_network_id (.int (k : Int)) = .ok k ∧
      get_network_id (.str (natRepr k)) = .ok k ∧
      (∀ s : String, strLower s = info.name → get_network_id (.str s) = .ok k)) ∧
    (∀ n : Int, (∀ p ∈ network_map, (p.1 : Int) ≠ n) →
      get_network_id (.int n) = .error ("Unsupported network: " ++ intRepr n)) ∧
    (∀ s : String,
      (∀ p ∈ network_map, ¬(isDigitStr s = true ∧ strToNat s = p.1)) →
      (∀ p ∈ network_map, strLower s ≠ p.2.name) →
      get_network_id (.str s) = .error ("Unsupported network: " ++ s)) := by
  refine ⟨fun k info hk => ⟨?_, ?_, fun s hs => ?_⟩, fun n h => ?_, fun s h1 h2 => ?_⟩
  · exact gni_int_found _ _ (network_map_find_id (k, info) hk)
  · have hf : (network_map.find? fun q => (q.1 : Int) == (strToNat (natRepr k) : Int)) =
        some (k, info) := by
      simp only [strToNat_natRepr]
      exact network_map_find_id (k, info) hk
    exact gni_str_digit_found _ (isDigitStr_natRepr k) _ hf
  · by_cases hd : isDigitStr s = true
    · rw [strLower_of_digits hd] at hs
      subst hs
      have hnd := network_map_names_not_digit (k, info) hk
      simp only at hnd
      rw [hnd] at hd
      exact absurd hd (by simp)
    · have hd' : isDigitStr s = false := by simpa using hd
      have hf : (network_map.find? fun q => strLower q.2.name == strLower s) =
          some (k, info) := by
        simp only [hs]
        exact network_map_find_name (k, info) hk
      exact gni_str_found s hd' (k, info) hf
  · have hf : (network_map.find? fun q => (q.1 : Int) == n) = none := by
      apply List.find?_eq_none.mpr
      intro p hp
      simpa using h p hp
    have hf2 : (network_map.find? fun q =>
        strLower q.2.name == strLower (intRepr n)) = none := by
      apply List.find?_eq_none.mpr
      intro p hp
      rw [network_map_names_lower p hp, strLower_intRepr]
      simp only [beq_iff_eq]
      intro he
      have hall : (p.2.name.data.all fun c => isDigitChar c || c == Char.ofNat 45) = true := by
        rw [List.all_eq_true]
        intro c hc
        exact intRepr_chars n c (he ▸ hc)
      rw [network_map_names_not_numeric p hp] at hall
      exact absurd hall (by simp)
    exact gni_int_notfound n hf hf2
  · have hf2 : (network_map.find? fun q => strLower q.2.name == strLower s) = none := by
      apply List.find?_eq_none.mpr
      intro p hp
      rw [network_map_names_lower p hp]
      simp only [beq_iff_eq]
      intro he
      exact h2 p hp he.symm
    by_cases hd : isDigitStr s = true
    · have hf : (network_map.find? fun q => (q.1 : Int) == (strToNat s : Int)) = none := by
        apply List.find?_eq_none.mpr
        intro p hp
        have hnp := h1 p hp
        simp only [hd, true_and] at hnp
        simp only [beq_iff_eq]
        intro hc
        exact hnp (by exact_mod_cast hc.symm)
      exact gni_str_digit_notfound s hd hf hf2
    · exact gni_str_notfound s (by simpa using hd) hf2

/-- Witness for C10: chain id 137 resolves as `int` and any-case name, and an
unmapped name raises. -/
theorem c10_network_resolution_witness :
    get_network_id (.int 137) = .ok 137 ∧
    get_network_id (.str "Polygon") = .ok 137 ∧
    get_network_id (.str "solana") = .error ("Unsupported network: " ++ "solana") :=
  ⟨(c10_network_resolution.1 137 ⟨"polygon", "https://polygonscan.com"⟩ (by decide)).1,
    (c10_network_resolution.1 137 ⟨"polygon", "https://polygonscan.com"⟩
      (by decide)).2.2 "Polygon" (by decide),
    c10_network_resolution.2.2 "solana" (by decide) (by decide)⟩
